import Mathlib

/-!
# Verification of the recommendation / courier-ranking service

A shallow embedding, in Lean 4, of the parts of the service that the checked
properties speak about:

* module 1 (`src/modules/module1_sentiment/analyzer.py`): sentiment score,
  label and the neutral fallback;
* module 2 (`src/modules/module2_recommendation/{cache,ranking,engine}.py`):
  the fingerprinted cache with fuzzy lookup, and the fusion ranking;
* module 4 (`src/modules/module4_livreur_ranking/*.py`): haversine distance,
  the ellipse spatial filter, AHP weights, TOPSIS ranking and the
  orchestrator.

Conventions of the embedding:

* Python `float` arithmetic is modelled exactly: by `ℚ` where the source only
  adds, multiplies, divides and compares (sentiment, cache, fusion ranking,
  AHP), and by `ℝ` where the source calls `math.sin`/`sqrt`/`asin`
  (haversine, TOPSIS).  Concrete counterexamples were chosen at inputs where
  IEEE-754 evaluation provably agrees with the exact value.
* Python's builtin `round` (banker's rounding, half to even) is `pyRound`
  below; `round(x, n)` is `pyRoundTo n x`.
* A Python `dict` used as a keyed store is an association list (first match
  wins, insertion at the head models overwriting) or a lookup function.
* Redis cache keys are modelled by the canonical string that the source
  hashes (md5, truncated to 16 hex chars): the spec treats collisions of the
  16-char digest as negligible, so the key is identified with its preimage.
* `list.sort(key=..., reverse=True)` is a stable descending sort, modelled by
  `List.insertionSort` with the relation `fun x y => key y ≤ key x`: Python's
  sort is stable, and with this (total, reflexive-on-ties) relation Mathlib's
  `insertionSort` keeps earlier input elements before later tied ones.
-/

/-! ## Python `round` on exact rationals -/

/-- Python's builtin `round` to an integer: round half to even. -/
def pyRound (x : ℚ) : ℤ :=
  if x - ⌊x⌋ < 1/2 then ⌊x⌋
  else if 1/2 < x - ⌊x⌋ then ⌊x⌋ + 1
  else if Even ⌊x⌋ then ⌊x⌋ else ⌊x⌋ + 1

/-- Evaluation rule: a value closer to `f` than to `f + 1` rounds to `f`. -/
theorem pyRound_near_lo (x : ℚ) (f : ℤ) (h1 : (f : ℚ) ≤ x) (h2 : x < f + 1/2) :
    pyRound x = f := by
  have hf : ⌊x⌋ = f := Int.floor_eq_iff.mpr ⟨h1, by linarith⟩
  unfold pyRound
  rw [hf, if_pos (by linarith)]

/-- Evaluation rule: a value closer to `f + 1` than to `f` rounds to `f + 1`. -/
theorem pyRound_near_hi (x : ℚ) (f : ℤ) (h1 : (f : ℚ) + 1/2 < x) (h2 : x < f + 1) :
    pyRound x = f + 1 := by
  have hf : ⌊x⌋ = f := Int.floor_eq_iff.mpr ⟨by linarith, by linarith⟩
  unfold pyRound
  rw [hf, if_neg (by linarith), if_pos (by linarith)]

/-- Evaluation rule: an exact half with even integer part rounds down. -/
theorem pyRound_half_even (x : ℚ) (f : ℤ) (h : x = f + 1/2) (he : Even f) :
    pyRound x = f := by
  have hf : ⌊x⌋ = f := Int.floor_eq_iff.mpr ⟨by rw [h]; linarith, by rw [h]; linarith⟩
  unfold pyRound
  rw [hf, if_neg (by rw [h]; linarith), if_neg (by rw [h]; linarith),
    if_pos he]

/-- Evaluation rule: an exact half with odd integer part rounds up. -/
theorem pyRound_half_odd (x : ℚ) (f : ℤ) (h : x = f + 1/2) (ho : ¬ Even f) :
    pyRound x = f + 1 := by
  have hf : ⌊x⌋ = f := Int.floor_eq_iff.mpr ⟨by rw [h]; linarith, by rw [h]; linarith⟩
  unfold pyRound
  rw [hf, if_neg (by rw [h]; linarith), if_neg (by rw [h]; linarith),
    if_neg ho]

/-- Python's `round(x, n)`: round half to even at the `n`-th decimal. -/
def pyRoundTo (n : ℕ) (x : ℚ) : ℚ :=
  (pyRound (x * 10 ^ n) : ℚ) / 10 ^ n

/-! ## Module 1 — sentiment analyzer (`analyzer.py`) -/

/-- The three sentiment labels (`constants.SentimentLabel`). -/
inductive SentimentLabel where
  | positive
  | negative
  | neutral
deriving DecidableEq, Repr

/-- Largest element of a list of rationals, Python's `max(...)`.
`max` on an empty sequence raises in Python; the `0` default is junk that is
never reached on the inputs considered (a softmax output is non-empty). -/
def listMaxQ : List ℚ → ℚ
  | [] => 0
  | x :: xs => xs.foldl max x

/-- `SentimentAnalyzer._compute_sentiment_score` (`analyzer.py:215-270`):
from the per-class probabilities and the argmax class, the rounded score, the
label and the confidence.  The label is decided from the score *before* the
final `round(score, 4)`. -/
def computeSentimentScore (probs : List ℚ) (predictedClass : ℕ) :
    ℚ × SentimentLabel × ℚ :=
  let numClasses := probs.length
  let confidence := listMaxQ probs
  let score : ℚ :=
    if numClasses = 2 then
      probs.getD 1 0 - probs.getD 0 0
    else if numClasses = 3 then
      probs.getD 2 0 - probs.getD 0 0
    else if numClasses = 5 then
      ((List.range 5).foldl (fun acc i => acc + (i + 1) * probs.getD i 0) 0 - 3) / 2
    else
      ((predictedClass : ℚ) / ((numClasses : ℚ) - 1)) * 2 - 1
  let label : SentimentLabel :=
    if score > 1/5 then .positive
    else if score < -(1/5) then .negative
    else .neutral
  (pyRoundTo 4 score, label, confidence)

/-- The score of `_compute_sentiment_score` before its final rounding
(the value the label is decided from). -/
def sentimentRawScore (probs : List ℚ) (predictedClass : ℕ) : ℚ :=
  let numClasses := probs.length
  if numClasses = 2 then
    probs.getD 1 0 - probs.getD 0 0
  else if numClasses = 3 then
    probs.getD 2 0 - probs.getD 0 0
  else if numClasses = 5 then
    ((List.range 5).foldl (fun acc i => acc + (i + 1) * probs.getD i 0) 0 - 3) / 2
  else
    ((predictedClass : ℚ) / ((numClasses : ℚ) - 1)) * 2 - 1

/-- The labelling thresholds of `analyzer.py:260-265`: positive above `0.2`,
negative below `-0.2`, neutral in between. -/
def labelOfScore (s : ℚ) : SentimentLabel :=
  if s > 1/5 then .positive
  else if s < -(1/5) then .negative
  else .neutral

/-- Input of `SentimentAnalyzer.analyze` (`schemas.SentimentInput`). -/
structure SentimentInput where
  product_id : String
  client_id : String
  commentaire : String
  product_type : String
deriving DecidableEq, Repr

/-- Output of `SentimentAnalyzer.analyze` (`schemas.SentimentResult`). -/
structure SentimentResult where
  client_id : String
  product_id : String
  sentiment_score : ℚ
  sentiment_label : SentimentLabel
  confidence : ℚ
  product_type : String
deriving DecidableEq, Repr

/-- What `_predict` hands to `analyze`: per-class probabilities and the
argmax class.  A raised exception anywhere inside the `try` block of
`analyze` is the `Except.error` case. -/
structure Prediction where
  probabilities : List ℚ
  predicted_class : ℕ
deriving DecidableEq, Repr

/-- `SentimentAnalyzer.analyze` (`analyzer.py:174-213`): on a successful
prediction, build the result from `_compute_sentiment_score`; on any raised
exception return the neutral result.  The Lean function is total: no
exception leaves `analyze`. -/
def analyze (input : SentimentInput) (prediction : Except String Prediction) :
    SentimentResult :=
  match prediction with
  | .ok p =>
      let r := computeSentimentScore p.probabilities p.predicted_class
      { client_id := input.client_id
        product_id := input.product_id
        sentiment_score := r.1
        sentiment_label := r.2.1
        confidence := r.2.2
        product_type := input.product_type }
  | .error _ =>
      { client_id := input.client_id
        product_id := input.product_id
        sentiment_score := 0
        sentiment_label := .neutral
        confidence := 0
        product_type := input.product_type }

/-- C7: on any raised exception inside sentiment inference, `analyze` returns
the neutral result (score `0.0`, label `neutral`, confidence `0.0`) for the
request's identifiers; being a total function, it propagates no exception. -/
theorem analyze_failure_returns_neutral (input : SentimentInput) (e : String) :
    analyze input (Except.error e) =
      { client_id := input.client_id
        product_id := input.product_id
        sentiment_score := 0
        sentiment_label := .neutral
        confidence := 0
        product_type := input.product_type } := rfl

/-- C8 (amended): the returned label is decided from the sentiment score
*before* the final `round(score, 4)`: positive iff that raw score exceeds
`0.2`, negative iff it is below `-0.2`, neutral otherwise; the returned score
is the raw score rounded to 4 decimals. -/
theorem computeSentimentScore_label_from_raw (probs : List ℚ) (pc : ℕ) :
    (computeSentimentScore probs pc).2.1 = labelOfScore (sentimentRawScore probs pc) ∧
    (computeSentimentScore probs pc).1 = pyRoundTo 4 (sentimentRawScore probs pc) :=
  ⟨rfl, rfl⟩

/-- C8 (counterexample): with two-class probabilities `[0.39999, 0.60001]` the
raw score is `0.20002`, so the label is `positive`, but the returned
`sentiment_score` is rounded to exactly `0.2`, which is not `> 0.2`: the
claimed "label is positive iff the returned score > 0.2" fails.  (IEEE-754
evaluation agrees: `0.60001 - 0.39999` rounds under `round(·, 4)` to `0.2`.) -/
theorem computeSentimentScore_rounded_boundary :
    (computeSentimentScore [39999/100000, 60001/100000] 1).2.1 = .positive ∧
    ¬ (1/5 < (computeSentimentScore [39999/100000, 60001/100000] 1).1) := by
  have hraw : sentimentRawScore [39999/100000, 60001/100000] 1 = 10001/50000 := by
    norm_num [sentimentRawScore]
  have hscale : (10001/50000 : ℚ) * 10 ^ 4 = 10001/5 := by norm_num
  have hround : pyRound ((10001 : ℚ)/5) = 2000 :=
    pyRound_near_lo _ 2000 (by norm_num) (by norm_num)
  have hlabel := (computeSentimentScore_label_from_raw
    [39999/100000, 60001/100000] 1).1
  have hscore := (computeSentimentScore_label_from_raw
    [39999/100000, 60001/100000] 1).2
  refine ⟨?_, ?_⟩
  · rw [hlabel, hraw]
    norm_num [labelOfScore]
  · rw [hscore, hraw, pyRoundTo, hscale, hround]
    norm_num

/-! ## Module 2 — recommendation cache (`cache.py`) -/

/-- `SENTIMENT_SCORE_TOLERANCE = 0.1` (`config/constants.py`), the τ of the
spec. -/
def sentimentTolerance : ℚ := 1/10

/-- `schemas.RecommendationRequest`, the fields the cache reads. -/
structure RecommendationRequest where
  product_id : String
  client_id : String
  sentiment_score : ℚ
  product_type : String
deriving DecidableEq

/-- `schemas.RankedProduct`: one fused recommendation. -/
structure RankedProduct where
  product_id : String
  similarity_score : ℚ
  availability_score : ℚ
  reputation_score : ℚ
  final_score : ℚ
  rank : ℕ
deriving DecidableEq

/-- `schemas.RecommendationResult`, the fields the claims read. -/
structure RecommendationResult where
  client_id : String
  reference_product_id : String
  sentiment_score : ℚ
  product_type : String
  recommendations : List RankedProduct
  total_results : ℕ
  cached : Bool
deriving DecidableEq

/-- The τ-bucket of `CacheManager._generate_cache_key` (`cache.py:77`):
`round(score / tolerance) * tolerance`. -/
def scoreBucket (s : ℚ) : ℚ :=
  (pyRound (s / sentimentTolerance) : ℚ) * sentimentTolerance

/-- The canonical string md5-hashed into a recommendation cache key
(`cache.py:79-82`): `{type}:{product_id}:{client_id}:{bucket:.2f}`.  The
two-decimal format is exact and injective on multiples of τ = 0.1, and the
spec deems 16-hex-char md5 collisions negligible, so the key is identified
with this tuple. -/
structure CacheKey where
  product_type : String
  product_id : String
  client_id : String
  bucket : ℚ
deriving DecidableEq

/-- `CacheManager._generate_cache_key` (`cache.py:64-82`). -/
def generateCacheKey (product_id client_id : String) (sentiment_score : ℚ)
    (product_type : String) : CacheKey :=
  { product_type := product_type
    product_id := product_id
    client_id := client_id
    bucket := scoreBucket sentiment_score }

/-- The Redis contents the cache manager touches: the `rec:{type}:{hash}`
entries and the `prod:{type}:{product_id}` entries.  `setex` overwrites, so
insertion at the head (first match wins on lookup) models a write. -/
structure CacheState where
  entries : List (CacheKey × RecommendationResult)
  productEntries : List ((String × String) × RecommendationResult)

/-- A cache with no entry. -/
def emptyCache : CacheState := ⟨[], []⟩

/-- First value stored under a key, Redis `get`. -/
def assocGet {α β : Type} [DecidableEq α] (l : List (α × β)) (k : α) : Option β :=
  (l.find? (fun e => e.1 = k)).map Prod.snd

/-- `CacheManager.store_result` (`cache.py:249-327`): write the result under
the specific key and under the product-level key. -/
def storeResult (c : CacheState) (request : RecommendationRequest)
    (result : RecommendationResult) : CacheState :=
  { entries :=
      (generateCacheKey request.product_id request.client_id
        request.sentiment_score request.product_type, result) :: c.entries
    productEntries :=
      ((request.product_type, request.product_id), result) :: c.productEntries }

/-- Which branch of `get_cached_result` produced a hit. -/
inductive CacheHitKind where
  | exact
  | fuzzy
  | product
deriving DecidableEq

/-- `CacheManager.get_cached_result` (`cache.py:88-247`): exact key first,
then the two fuzzy keys at `score ± τ` (each only when the shifted score
stays within `[-1, 1]`), then the product-level entry guarded by
`|cached.sentiment_score − request.sentiment_score| ≤ τ`. -/
def getCachedResult (c : CacheState) (request : RecommendationRequest) :
    Option (CacheHitKind × RecommendationResult) :=
  match assocGet c.entries (generateCacheKey request.product_id
      request.client_id request.sentiment_score request.product_type) with
  | some r => some (.exact, { r with cached := true })
  | none =>
    let tryDelta : ℚ → Option RecommendationResult := fun delta =>
      if -1 ≤ request.sentiment_score + delta ∧ request.sentiment_score + delta ≤ 1 then
        assocGet c.entries (generateCacheKey request.product_id
          request.client_id (request.sentiment_score + delta) request.product_type)
      else none
    match tryDelta (-sentimentTolerance) with
    | some r => some (.fuzzy, { r with cached := true })
    | none =>
      match tryDelta sentimentTolerance with
      | some r => some (.fuzzy, { r with cached := true })
      | none =>
        match assocGet c.productEntries (request.product_type, request.product_id) with
        | some r =>
          if |r.sentiment_score - request.sentiment_score| ≤ sentimentTolerance then
            some (.product, { r with cached := true })
          else none
        | none => none

/-- `scoreBucket` at `0.1`: `0.1 / 0.1 = 1` rounds to `1`. -/
theorem scoreBucket_tenth : scoreBucket (1/10) = 1/10 := by
  have h : (1/10 : ℚ) / sentimentTolerance = 1 := by norm_num [sentimentTolerance]
  rw [scoreBucket, h, pyRound_near_lo 1 1 (by norm_num) (by norm_num)]
  norm_num [sentimentTolerance]

/-- `scoreBucket` at `0.05`: `0.05 / 0.1 = 0.5` rounds half-to-even to `0`. -/
theorem scoreBucket_twentieth : scoreBucket (1/20) = 0 := by
  have h : (1/20 : ℚ) / sentimentTolerance = 1/2 := by norm_num [sentimentTolerance]
  rw [scoreBucket, h, pyRound_half_even (1/2) 0 (by norm_num) (by decide)]
  norm_num

/-- `scoreBucket` at `-0.05`: `-0.5` rounds half-to-even to `0`. -/
theorem scoreBucket_neg_twentieth : scoreBucket (-(1/20)) = 0 := by
  have h : (-(1/20) : ℚ) / sentimentTolerance = (-1 : ℤ) + 1/2 := by
    norm_num [sentimentTolerance]
  rw [scoreBucket, h, pyRound_half_odd _ (-1) (by norm_num) (by decide)]
  norm_num

/-- `scoreBucket` at `0.15`: `1.5` rounds half-to-even to `2`, bucket `0.2`. -/
theorem scoreBucket_three_twentieth : scoreBucket (3/20) = 1/5 := by
  have h : (3/20 : ℚ) / sentimentTolerance = (1 : ℤ) + 1/2 := by
    norm_num [sentimentTolerance]
  rw [scoreBucket, h, pyRound_half_odd _ 1 (by norm_num) (by decide)]
  norm_num [sentimentTolerance]

/-- Redis `get` on a store whose head entry has the looked-up key. -/
theorem assocGet_cons_self {a b : Type} [DecidableEq a] (k : a) (v : b)
    (l : List (a × b)) : assocGet ((k, v) :: l) k = some v := by
  simp [assocGet]

/-- Redis `get` skips an entry under a different key. -/
theorem assocGet_cons_ne {a b : Type} [DecidableEq a] {k q : a} (v : b)
    (l : List (a × b)) (h : k ≠ q) :
    assocGet ((k, v) :: l) q = assocGet l q := by
  simp [assocGet, List.find?_cons, h]

/-- Redis `get` on an empty store. -/
theorem assocGet_nil {a b : Type} [DecidableEq a] (q : a) :
    assocGet ([] : List (a × b)) q = none := rfl

/-- A concrete stored recommendation result with sentiment score `0.1`,
used by the cache scenarios. -/
def cacheDemoResult : RecommendationResult :=
  { client_id := "C"
    reference_product_id := "P"
    sentiment_score := 1/10
    product_type := "vehicle"
    recommendations := []
    total_results := 0
    cached := false }

/-- C2 (counterexample): store a result for sentiment `s₁ = 0.1`, then look up
`s₂ = 0.05` for the same `(product, client, type)`.  `|s₁ − s₂| = 0.05 ≤ τ`,
yet the buckets are `round(1.0) = 1` versus `round(0.5) = 0` (half-to-even),
and the two fuzzy probes bucket to `0` and `0.2`: the hit comes from the
*product*-level key, not from the claimed `exact`-or-`fuzzy` pair.  (IEEE-754
evaluation agrees at these inputs: `0.05/0.1 = 0.5` and `-0.05/0.1 = -0.5`
exactly, and `(0.05+0.1)/0.1` rounds above `1.5`.) -/
theorem getCachedResult_boundary_not_fuzzy :
    (getCachedResult
        (storeResult emptyCache ⟨"P", "C", 1/10, "vehicle"⟩ cacheDemoResult)
        ⟨"P", "C", 1/20, "vehicle"⟩).map Prod.fst = some .product := by
  have e1 : generateCacheKey "P" "C" (1/10) "vehicle" =
      ⟨"vehicle", "P", "C", 1/10⟩ := by
    unfold generateCacheKey; rw [scoreBucket_tenth]
  have e2 : generateCacheKey "P" "C" (1/20) "vehicle" =
      ⟨"vehicle", "P", "C", 0⟩ := by
    unfold generateCacheKey; rw [scoreBucket_twentieth]
  have e3 : generateCacheKey "P" "C" (1/20 + -sentimentTolerance) "vehicle" =
      ⟨"vehicle", "P", "C", 0⟩ := by
    have h : (1/20 : ℚ) + -sentimentTolerance = -(1/20) := by
      norm_num [sentimentTolerance]
    unfold generateCacheKey; rw [h, scoreBucket_neg_twentieth]
  have e4 : generateCacheKey "P" "C" (1/20 + sentimentTolerance) "vehicle" =
      ⟨"vehicle", "P", "C", 1/5⟩ := by
    have h : (1/20 : ℚ) + sentimentTolerance = 3/20 := by
      norm_num [sentimentTolerance]
    unfold generateCacheKey; rw [h, scoreBucket_three_twentieth]
  have h2 : assocGet [((⟨"vehicle", "P", "C", 1/10⟩ : CacheKey), cacheDemoResult)]
      (⟨"vehicle", "P", "C", 0⟩ : CacheKey) = none := by
    rw [assocGet_cons_ne _ _ (by simp), assocGet_nil]
  have h4 : assocGet [((⟨"vehicle", "P", "C", 1/10⟩ : CacheKey), cacheDemoResult)]
      (⟨"vehicle", "P", "C", 1/5⟩ : CacheKey) = none := by
    rw [assocGet_cons_ne _ _ (by simp), assocGet_nil]
  simp only [getCachedResult, storeResult, emptyCache, e1, e2, e3, e4]
  rw [h2, h4]
  have hin1 : ((-1 : ℚ) ≤ 1/20 + -sentimentTolerance ∧
      (1/20 : ℚ) + -sentimentTolerance ≤ 1) := by
    norm_num [sentimentTolerance]
  have hin2 : ((-1 : ℚ) ≤ 1/20 + sentimentTolerance ∧
      (1/20 : ℚ) + sentimentTolerance ≤ 1) := by
    norm_num [sentimentTolerance]
  rw [if_pos hin1, if_pos hin2, assocGet_cons_self]
  norm_num [cacheDemoResult, sentimentTolerance]
  intro h
  rw [abs_of_pos (by norm_num : (0:ℚ) < 1/20)] at h
  norm_num at h

/-- C2 (amended): after a result for score `s₁` is stored, a lookup for `s₂`
on the same `(product_id, client_id, product_type)` with `|s₁ − s₂| ≤ τ`
returns a cache hit of kind `exact`, `fuzzy` *or* `product`: when the bucket
of `s₂` and the two shifted buckets all miss, the product-level entry is
within tolerance and hits. -/
theorem getCachedResult_hit_of_close_scores (pid cid ptype : String) (s1 s2 : ℚ)
    (res : RecommendationResult) (hres : res.sentiment_score = s1)
    (h1lo : -1 ≤ s1) (h1hi : s1 ≤ 1) (h2lo : -1 ≤ s2) (h2hi : s2 ≤ 1)
    (hnear : |s1 - s2| ≤ sentimentTolerance) :
    ∃ kind r,
      getCachedResult (storeResult emptyCache ⟨pid, cid, s1, ptype⟩ res)
        ⟨pid, cid, s2, ptype⟩ = some (kind, r) := by
  simp only [getCachedResult, storeResult, emptyCache]
  cases hA : assocGet
      [(generateCacheKey pid cid s1 ptype, res)]
      (generateCacheKey pid cid s2 ptype) with
  | some r => exact ⟨_, _, rfl⟩
  | none =>
    simp only [hA]
    cases hB : (if -1 ≤ s2 + -sentimentTolerance ∧ s2 + -sentimentTolerance ≤ 1 then
        assocGet [(generateCacheKey pid cid s1 ptype, res)]
          (generateCacheKey pid cid (s2 + -sentimentTolerance) ptype)
      else none) with
    | some r => simp only [hB]; exact ⟨_, _, rfl⟩
    | none =>
      simp only [hB]
      cases hC : (if -1 ≤ s2 + sentimentTolerance ∧ s2 + sentimentTolerance ≤ 1 then
          assocGet [(generateCacheKey pid cid s1 ptype, res)]
            (generateCacheKey pid cid (s2 + sentimentTolerance) ptype)
        else none) with
      | some r => simp only [hC]; exact ⟨_, _, rfl⟩
      | none =>
        simp only [hC, assocGet_cons_self]
        rw [hres, if_pos hnear]
        exact ⟨_, _, rfl⟩

/-- C2 (witness): the amended theorem applied at the concrete boundary
scenario (`s₁ = 0.1`, `s₂ = 0.05`). -/
theorem getCachedResult_hit_of_close_scores_witness :
    ∃ kind r,
      getCachedResult (storeResult emptyCache ⟨"P", "C", 1/10, "vehicle"⟩ cacheDemoResult)
        ⟨"P", "C", 1/20, "vehicle"⟩ = some (kind, r) :=
  getCachedResult_hit_of_close_scores "P" "C" "vehicle" (1/10) (1/20)
    cacheDemoResult rfl (by norm_num) (by norm_num) (by norm_num) (by norm_num)
    (by rw [show (1:ℚ)/10 - 1/20 = 1/20 by norm_num,
          abs_of_pos (by norm_num : (0:ℚ) < 1/20)]
        norm_num [sentimentTolerance])

/-! ## Module 2 — fusion ranking (`ranking.py`) and result assembly (`engine.py`) -/

/-- `schemas.ProductDetails`, the fields the ranker reads (`note_moyenne` can
be `None`, hence the optional reputation). -/
structure ProductDetails where
  product_id : String
  disponible : Bool
  reputation : Option ℚ
deriving DecidableEq

/-- `schemas.SimilarProduct`, the fields the ranker reads. -/
structure SimilarProduct where
  product_id : String
  similarity_score : ℚ
deriving DecidableEq

/-- `RankingService.compute_final_score` (`ranking.py:60-86`). -/
def computeFinalScore (sw aw rw : ℚ) (similarity : ℚ) (availability : Bool)
    (reputation : ℚ) : ℚ :=
  let availability_score : ℚ := if availability then 1 else 0
  let reputation_normalized : ℚ := if reputation ≠ 0 then min (reputation / 5) 1 else 0
  pyRoundTo 4 (sw * similarity + aw * availability_score + rw * reputation_normalized)

/-- Descending order on fused scores, the key of
`ranked_products.sort(key=lambda x: x.final_score, reverse=True)`. -/
def finalScoreDesc : RankedProduct → RankedProduct → Prop :=
  fun x y => y.final_score ≤ x.final_score

instance : DecidableRel finalScoreDesc :=
  fun x y => inferInstanceAs (Decidable (y.final_score ≤ x.final_score))

instance : IsTotal RankedProduct finalScoreDesc :=
  ⟨fun x y => le_total y.final_score x.final_score⟩

instance : IsTrans RankedProduct finalScoreDesc :=
  ⟨fun _ _ _ h1 h2 => le_trans h2 h1⟩

/-- The 1-based rank assignment of `ranking.py:140-141`. -/
def assignRanks (l : List RankedProduct) : List RankedProduct :=
  l.enum.map (fun p => { p.2 with rank := p.1 + 1 })

/-- `RankingService.rank_products` (`ranking.py:88-144`): build a
`RankedProduct` for every candidate whose details exist (a missing entry is
skipped with only a log line), sort stably by descending `final_score`, then
assign 1-based ranks in sort order. -/
def rankProducts (sw aw rw : ℚ) (similar : List SimilarProduct)
    (details : String → Option ProductDetails) : List RankedProduct :=
  let ranked := similar.filterMap (fun s =>
    match details s.product_id with
    | none => none
    | some d =>
      let reputation := d.reputation.getD 0
      some { product_id := s.product_id
             similarity_score := pyRoundTo 4 s.similarity_score
             availability_score := if d.disponible then 1 else 0
             reputation_score := if reputation ≠ 0 then pyRoundTo 4 (reputation / 5) else 0
             final_score := computeFinalScore sw aw rw s.similarity_score d.disponible reputation
             rank := 0 })
  assignRanks (List.insertionSort finalScoreDesc ranked)

/-- `RecommendationEngine.recommend`, result assembly (`engine.py:151-160`):
`total_results` is the length of the ranked list. -/
def buildRecommendationResult (request : RecommendationRequest)
    (ranked : List RankedProduct) : RecommendationResult :=
  { client_id := request.client_id
    reference_product_id := request.product_id
    sentiment_score := request.sentiment_score
    product_type := request.product_type
    recommendations := ranked
    total_results := ranked.length
    cached := false }

theorem assignRanks_map_rank (l : List RankedProduct) :
    (assignRanks l).map (fun p => p.rank) = List.range' 1 l.length := by
  simp only [assignRanks, List.map_map]
  have : ((fun p => p.rank) ∘ fun p : ℕ × RankedProduct => { p.2 with rank := p.1 + 1 })
      = (fun n => n + 1) ∘ Prod.fst := rfl
  rw [this, ← List.map_map, List.enum_map_fst, List.range'_eq_map_range]
  simp [Nat.add_comm]

theorem assignRanks_map_final_score (l : List RankedProduct) :
    (assignRanks l).map (fun p => p.final_score) = l.map (fun p => p.final_score) := by
  simp only [assignRanks, List.map_map]
  have : ((fun p => p.final_score) ∘ fun p : ℕ × RankedProduct => { p.2 with rank := p.1 + 1 })
      = (fun p => p.final_score) ∘ Prod.snd := rfl
  rw [this, ← List.map_map, List.enum_map_snd]

theorem assignRanks_length (l : List RankedProduct) :
    (assignRanks l).length = l.length := by
  simp [assignRanks]

/-- C5: in every pipeline-produced recommendation result, the `rank` fields
are exactly `1, 2, ..., N` in list order with `N = total_results`, and the
`final_score` values are weakly decreasing along that order. -/
theorem rankProducts_rank_permutation_and_sorted (sw aw rw : ℚ)
    (similar : List SimilarProduct) (details : String → Option ProductDetails)
    (request : RecommendationRequest) :
    ((buildRecommendationResult request
        (rankProducts sw aw rw similar details)).recommendations.map (fun p => p.rank))
      = List.range' 1 (buildRecommendationResult request
          (rankProducts sw aw rw similar details)).total_results ∧
    List.Pairwise (fun a b : ℚ => b ≤ a)
      ((buildRecommendationResult request
        (rankProducts sw aw rw similar details)).recommendations.map
          (fun p => p.final_score)) := by
  constructor
  · simp only [buildRecommendationResult, rankProducts]
    rw [assignRanks_map_rank, assignRanks_length]
  · simp only [buildRecommendationResult, rankProducts]
    rw [assignRanks_map_final_score]
    exact List.pairwise_map.mpr (List.sorted_insertionSort finalScoreDesc _)

/-- C10: a similar-product candidate with no product-details entry is
silently skipped (the function is total, no error path), every returned
product has a details entry, and the output length — hence `total_results` —
equals the number of candidates *with* details, which can be strictly below
the number of candidates passed in. -/
theorem rankProducts_drops_missing_details (sw aw rw : ℚ)
    (similar : List SimilarProduct) (details : String → Option ProductDetails) :
    (∀ p ∈ rankProducts sw aw rw similar details, (details p.product_id).isSome) ∧
    (rankProducts sw aw rw similar details).length
      = (similar.filter (fun s => (details s.product_id).isSome)).length ∧
    (rankProducts sw aw rw [⟨"X", 1/2⟩] (fun _ => none)).length
      < ([⟨"X", 1/2⟩] : List SimilarProduct).length := by
  refine ⟨?_, ?_, ?_⟩
  · intro p hp
    simp only [rankProducts, assignRanks, List.mem_map] at hp
    obtain ⟨⟨i, q⟩, hq, rfl⟩ := hp
    have hq2 : q ∈ List.insertionSort finalScoreDesc
        (similar.filterMap (fun s =>
          match details s.product_id with
          | none => none
          | some d =>
            let reputation := d.reputation.getD 0
            some { product_id := s.product_id
                   similarity_score := pyRoundTo 4 s.similarity_score
                   availability_score := if d.disponible then 1 else 0
                   reputation_score := if reputation ≠ 0 then pyRoundTo 4 (reputation / 5) else 0
                   final_score := computeFinalScore sw aw rw s.similarity_score d.disponible reputation
                   rank := 0 })) :=
      List.get?_mem (List.mem_enum_iff_get?.mp hq)
    have hq3 := (List.perm_insertionSort finalScoreDesc _).mem_iff.mp hq2
    obtain ⟨s, hs, hfs⟩ := List.mem_filterMap.mp hq3
    cases hd : details s.product_id with
    | none => rw [hd] at hfs; exact absurd hfs (by simp)
    | some d =>
      rw [hd] at hfs
      simp only [Option.some.injEq] at hfs
      have hpid : q.product_id = s.product_id := by rw [← hfs]
      show (details q.product_id).isSome
      rw [hpid, hd]
      rfl
  · simp only [rankProducts]
    rw [assignRanks_length, List.length_insertionSort]
    induction similar with
    | nil => rfl
    | cons s rest ih =>
      cases hd : details s.product_id with
      | none => simpa [List.filterMap_cons, List.filter_cons, hd] using ih
      | some d => simpa [List.filterMap_cons, List.filter_cons, hd] using ih
  · simp [rankProducts, assignRanks]

/-! ## Module 4 — geodesy (`utils.py`) -/

noncomputable section

/-- `EARTH_RADIUS_KM = 6371.0` (`module4 constants.py`). -/
def earthRadiusKm : ℝ := 6371

/-- `math.radians` (degrees to radians). -/
def radiansOfDegrees (d : ℝ) : ℝ := d * (Real.pi / 180)

/-- The value `utils.haversine_distance` passes to `math.asin`
(`utils.py:50-55`): `sqrt(sin²(Δφ/2) + cos φ₁ cos φ₂ sin²(Δλ/2))`.  The
source applies NO clamping to it. -/
def haversineArg (lat1 lon1 lat2 lon2 : ℝ) : ℝ :=
  Real.sqrt (Real.sin ((radiansOfDegrees lat2 - radiansOfDegrees lat1) / 2) ^ 2 +
    Real.cos (radiansOfDegrees lat1) * Real.cos (radiansOfDegrees lat2) *
      Real.sin ((radiansOfDegrees lon2 - radiansOfDegrees lon1) / 2) ^ 2)

/-- `utils.haversine_distance` (`utils.py:11-59`) at its default radius:
`radius * (2 * asin(asin-argument))`. -/
def haversineDistance (lat1 lon1 lat2 lon2 : ℝ) : ℝ :=
  earthRadiusKm * (2 * Real.arcsin (haversineArg lat1 lon1 lat2 lon2))

/-- Modelled from the spec (§4.1 "clamp the `asin` argument to [0,1] to
tolerate rounding"): the haversine with the clamp the spec prescribes. -/
def haversineDistanceClamped (lat1 lon1 lat2 lon2 : ℝ) : ℝ :=
  earthRadiusKm *
    (2 * Real.arcsin (min 1 (max 0 (haversineArg lat1 lon1 lat2 lon2))))

/-- C9: for latitudes in `[-90, 90]` and longitudes in `[-180, 180]`, the
argument handed to `asin` already lies in `[0, 1]` (so the spec's clamp is
the identity and no domain error can occur: the code's unclamped haversine
equals the spec's clamped one), and the returned distance is non-negative.
Exact-real semantics; a floating-point overshoot of the unclamped argument
above 1 is outside this model. -/
theorem haversine_asin_arg_in_unit_interval (lat1 lon1 lat2 lon2 : ℝ)
    (hlat1 : -90 ≤ lat1 ∧ lat1 ≤ 90) (hlat2 : -90 ≤ lat2 ∧ lat2 ≤ 90)
    (hlon1 : -180 ≤ lon1 ∧ lon1 ≤ 180) (hlon2 : -180 ≤ lon2 ∧ lon2 ≤ 180) :
    0 ≤ haversineArg lat1 lon1 lat2 lon2 ∧
    haversineArg lat1 lon1 lat2 lon2 ≤ 1 ∧
    haversineDistance lat1 lon1 lat2 lon2 =
      haversineDistanceClamped lat1 lon1 lat2 lon2 ∧
    0 ≤ haversineDistance lat1 lon1 lat2 lon2 := by
  have hpi := Real.pi_pos
  set phi1 := radiansOfDegrees lat1 with hphi1
  set phi2 := radiansOfDegrees lat2 with hphi2
  have hphi1m : -(Real.pi / 2) ≤ phi1 ∧ phi1 ≤ Real.pi / 2 := by
    constructor <;>
      · rw [hphi1, radiansOfDegrees]
        nlinarith [hlat1.1, hlat1.2]
  have hphi2m : -(Real.pi / 2) ≤ phi2 ∧ phi2 ≤ Real.pi / 2 := by
    constructor <;>
      · rw [hphi2, radiansOfDegrees]
        nlinarith [hlat2.1, hlat2.2]
  have hc1 : 0 ≤ Real.cos phi1 :=
    Real.cos_nonneg_of_mem_Icc ⟨hphi1m.1, hphi1m.2⟩
  have hc2 : 0 ≤ Real.cos phi2 :=
    Real.cos_nonneg_of_mem_Icc ⟨hphi2m.1, hphi2m.2⟩
  have ha0 : 0 ≤ Real.sin ((phi2 - phi1) / 2) ^ 2 +
      Real.cos phi1 * Real.cos phi2 *
        Real.sin ((radiansOfDegrees lon2 - radiansOfDegrees lon1) / 2) ^ 2 :=
    add_nonneg (sq_nonneg _)
      (mul_nonneg (mul_nonneg hc1 hc2) (sq_nonneg _))
  have h2x : (2:ℝ) * ((phi2 - phi1) / 2) = phi2 - phi1 := by ring
  have hhalf : Real.cos ((phi2 - phi1) / 2) ^ 2
      = 1/2 + Real.cos (phi2 - phi1) / 2 := by
    rw [Real.cos_sq, h2x]
  have hcoskey : Real.cos phi1 * Real.cos phi2 ≤ Real.cos ((phi2 - phi1) / 2) ^ 2 := by
    have hsub := Real.cos_sub phi2 phi1
    have hadd := Real.cos_add phi2 phi1
    have hone := Real.cos_le_one (phi2 + phi1)
    rw [hhalf]
    linarith
  have ha1 : Real.sin ((phi2 - phi1) / 2) ^ 2 +
      Real.cos phi1 * Real.cos phi2 *
        Real.sin ((radiansOfDegrees lon2 - radiansOfDegrees lon1) / 2) ^ 2 ≤ 1 := by
    have hs1 : Real.sin ((radiansOfDegrees lon2 - radiansOfDegrees lon1) / 2) ^ 2 ≤ 1 :=
      Real.sin_sq_le_one _
    have hstep : Real.cos phi1 * Real.cos phi2 *
        Real.sin ((radiansOfDegrees lon2 - radiansOfDegrees lon1) / 2) ^ 2
        ≤ Real.cos phi1 * Real.cos phi2 :=
      mul_le_of_le_one_right (mul_nonneg hc1 hc2) hs1
    have hpyth := Real.sin_sq_add_cos_sq ((phi2 - phi1) / 2)
    linarith
  have h0 : 0 ≤ haversineArg lat1 lon1 lat2 lon2 := Real.sqrt_nonneg _
  have h1 : haversineArg lat1 lon1 lat2 lon2 ≤ 1 := by
    rw [haversineArg]
    exact Real.sqrt_le_one.mpr ha1
  refine ⟨h0, h1, ?_, ?_⟩
  · rw [haversineDistance, haversineDistanceClamped,
      max_eq_right h0, min_eq_right h1]
  · rw [haversineDistance]
    have harcsin : 0 ≤ Real.arcsin (haversineArg lat1 lon1 lat2 lon2) :=
      Real.arcsin_nonneg.mpr h0
    have hr : (0:ℝ) ≤ earthRadiusKm := by rw [earthRadiusKm]; norm_num
    positivity

end

/-- C9 (witness): the theorem at `(0°, 0°)`–`(0°, 1°)`. -/
theorem haversine_asin_arg_in_unit_interval_witness :
    0 ≤ haversineArg 0 0 0 1 ∧ haversineArg 0 0 0 1 ≤ 1 ∧
    haversineDistance 0 0 0 1 = haversineDistanceClamped 0 0 0 1 ∧
    0 ≤ haversineDistance 0 0 0 1 :=
  haversine_asin_arg_in_unit_interval 0 0 0 1
    (by norm_num) (by norm_num) (by norm_num) (by norm_num)

/-! ## Module 4 — constants and schemas (`constants.py`, `schemas.py`) -/

/-- `constants.TypeLivraison`. -/
inductive TypeLivraison where
  | standard
  | express
  | sameday
deriving DecidableEq

/-- `constants.TypeVehicule`. -/
inductive TypeVehicule where
  | velo
  | moto
  | voiture
  | camion
deriving DecidableEq

/-- `constants.VEHICLE_TYPE_SCORES`. -/
noncomputable def vehicleTypeScore : TypeVehicule → ℝ
  | .velo => 1/10
  | .moto => 3/10
  | .voiture => 8/10
  | .camion => 1

/-- `constants.SPATIAL_TOLERANCE_KM`. -/
noncomputable def spatialToleranceKm : TypeLivraison → ℝ
  | .standard => 5/2
  | .express => 3/2
  | .sameday => 1

/-- `schemas.PointSchema`, the coordinate fields. -/
structure Point where
  latitude : ℝ
  longitude : ℝ

/-- `schemas.LivreurCandidatSchema`. -/
structure LivreurCandidat where
  livreur_id : String
  nom_commercial : String
  position_actuelle : Point
  reputation : ℝ
  nombre_livraisons : ℕ
  taux_reussite : ℝ
  type_vehicule : TypeVehicule
  capacite_max_kg : ℝ

/-! ## Module 4 — spatial filter (`utils.py`, `spatial_filter.py`) -/

/-- `utils.calculate_total_distance` (`utils.py:62-98`): the total is
`d(candidate, pickup) + d(pickup, delivery)` — the second leg starts at the
*pickup*, not at the candidate. -/
noncomputable def calculateTotalDistance
    (livLat livLon puLat puLon deLat deLon : ℝ) : ℝ × ℝ × ℝ :=
  let distToPickup := haversineDistance livLat livLon puLat puLon
  let distPickupToDelivery := haversineDistance puLat puLon deLat deLon
  (distToPickup, distPickupToDelivery, distToPickup + distPickupToDelivery)

/-- `utils.calculate_ellipse_dmax` (`utils.py:101-127`). -/
noncomputable def calculateEllipseDmax (f1Lat f1Lon f2Lat f2Lon tol : ℝ) : ℝ :=
  haversineDistance f1Lat f1Lon f2Lat f2Lon + 2 * tol

/-- Modelled from the spec (§4.1): the ellipse predicate the spec states,
`haversine(candidate, f₁) + haversine(candidate, f₂) ≤ haversine(f₁, f₂) + 2·tol`. -/
def ellipsePredicateSpec (candidate f1 f2 : Point) (tol : ℝ) : Prop :=
  haversineDistance candidate.latitude candidate.longitude f1.latitude f1.longitude +
      haversineDistance candidate.latitude candidate.longitude f2.latitude f2.longitude ≤
    haversineDistance f1.latitude f1.longitude f2.latitude f2.longitude + 2 * tol

open Classical in
/-- `SpatialFilter.filter_by_ellipse` (`spatial_filter.py:40-116`): eligible
are the candidates with `calculate_total_distance ≤ Dmax`; the rest are
rejected (the embedding keeps their ids). -/
noncomputable def filterByEllipse (livreurs : List LivreurCandidat)
    (ramassage livraison : Point) (tol : ℝ) :
    List LivreurCandidat × List String :=
  let dmax := calculateEllipseDmax ramassage.latitude ramassage.longitude
      livraison.latitude livraison.longitude tol
  let totalDist := fun (l : LivreurCandidat) =>
    (calculateTotalDistance l.position_actuelle.latitude l.position_actuelle.longitude
      ramassage.latitude ramassage.longitude
      livraison.latitude livraison.longitude).2.2
  (livreurs.filter (fun l => decide (totalDist l ≤ dmax)),
   (livreurs.filter (fun l => decide (¬ totalDist l ≤ dmax))).map
     (fun l => l.livreur_id))

theorem haversineDistance_self (lat lon : ℝ) :
    haversineDistance lat lon lat lon = 0 := by
  simp [haversineDistance, haversineArg, sub_self, Real.sin_zero,
    Real.sqrt_zero, Real.arcsin_zero]

theorem haversineDistance_one_lon_east :
    haversineDistance 0 0 0 1 = 6371 * (Real.pi / 180) := by
  have hpi := Real.pi_pos
  have hsin : (0:ℝ) ≤ Real.sin (Real.pi / 360) :=
    Real.sin_nonneg_of_nonneg_of_le_pi (by positivity) (by linarith)
  have harg : haversineArg 0 0 0 1 = Real.sin (Real.pi / 360) := by
    rw [haversineArg]
    simp only [radiansOfDegrees, zero_mul, one_mul, sub_zero, sub_self,
      zero_div, Real.sin_zero, Real.cos_zero, ne_eq, OfNat.ofNat_ne_zero,
      not_false_eq_true, zero_pow, zero_add]
    rw [show (Real.pi / 180) / 2 = Real.pi / 360 by ring]
    exact Real.sqrt_sq hsin
  rw [haversineDistance, harg,
    Real.arcsin_sin (by linarith) (by linarith)]
  rw [earthRadiusKm]
  ring

theorem haversineDistance_one_lon_west :
    haversineDistance 0 1 0 0 = 6371 * (Real.pi / 180) := by
  have hpi := Real.pi_pos
  have hsin : (0:ℝ) ≤ Real.sin (Real.pi / 360) :=
    Real.sin_nonneg_of_nonneg_of_le_pi (by positivity) (by linarith)
  have harg : haversineArg 0 1 0 0 = Real.sin (Real.pi / 360) := by
    rw [haversineArg]
    simp only [radiansOfDegrees, zero_mul, one_mul, sub_zero, sub_self,
      zero_div, Real.sin_zero, Real.cos_zero, ne_eq, OfNat.ofNat_ne_zero,
      not_false_eq_true, zero_pow, zero_add]
    rw [show ((0:ℝ) - Real.pi / 180) / 2 = -(Real.pi / 360) by ring]
    rw [Real.sin_neg, neg_sq]
    exact Real.sqrt_sq hsin
  rw [haversineDistance, harg,
    Real.arcsin_sin (by linarith) (by linarith)]
  rw [earthRadiusKm]
  ring

/-- One degree of longitude at the equator, `6371·π/180 ≈ 111.2 km`, exceeds
`Dmax − d(F1,F2) = 2·tol = 5 km`. -/
theorem one_degree_arc_gt_five : (5:ℝ) < 6371 * (Real.pi / 180) := by
  nlinarith [Real.pi_gt_three]

/-- A candidate standing exactly at the drop-off point. -/
noncomputable def dropoffCandidate : LivreurCandidat :=
  { livreur_id := "L1"
    nom_commercial := "Livreur L1"
    position_actuelle := ⟨0, 1⟩
    reputation := 5
    nombre_livraisons := 10
    taux_reussite := 9/10
    type_vehicule := .moto
    capacite_max_kg := 50 }

/-- C1 (code divergence): pickup `F1 = (0°, 0°)`, drop-off `F2 = (0°, 1°)`,
tolerance `2.5 km`, candidate at `F2`.  The spec's ellipse predicate accepts
it — `d(P,F1) + d(P,F2) = d(F1,F2) + 0 ≤ d(F1,F2) + 2·tol` — but
`filter_by_ellipse` compares `calculate_total_distance = d(P,F1) + d(F1,F2)
= 2·d(F1,F2) ≈ 222 km` against `Dmax ≈ 116 km` and rejects it, contradicting
the `SpatialFilter` docstring `d(P,F1) + d(P,F2) ≤ Dmax`. -/
theorem filterByEllipse_diverges_from_spec_predicate :
    ellipsePredicateSpec ⟨0, 1⟩ ⟨0, 0⟩ ⟨0, 1⟩ (5/2) ∧
    (filterByEllipse [dropoffCandidate] ⟨0, 0⟩ ⟨0, 1⟩ (5/2)).1 = [] ∧
    (filterByEllipse [dropoffCandidate] ⟨0, 0⟩ ⟨0, 1⟩ (5/2)).2 = ["L1"] := by
  have hD := haversineDistance_one_lon_east
  have hDw := haversineDistance_one_lon_west
  have hself := haversineDistance_self 0 1
  have hgt := one_degree_arc_gt_five
  have hno : ¬ (haversineDistance 0 1 0 0 + haversineDistance 0 0 0 1 ≤
      haversineDistance 0 0 0 1 + 2 * (5/2)) := by
    rw [hD, hDw]; linarith
  refine ⟨?_, ?_, ?_⟩
  · unfold ellipsePredicateSpec
    simp only
    rw [hDw, hself, hD]
    linarith
  · simp only [filterByEllipse, calculateTotalDistance, calculateEllipseDmax,
      dropoffCandidate, List.filter_cons, List.filter_nil]
    simp [hno]
  · simp only [filterByEllipse, calculateTotalDistance, calculateEllipseDmax,
      dropoffCandidate, List.filter_cons, List.filter_nil]
    simp [hno]

/-! ## Module 4 — AHP calculator (`ahp_calculator.py`)

The AHP arithmetic is plain field arithmetic, embedded over `ℚ`. -/

/-- Row means of the column-normalized matrix
(`AHPCalculator.calculate_weights`, steps 1–2). -/
def ahpRowMean {n : ℕ} (M : Fin n → Fin n → ℚ) (i : Fin n) : ℚ :=
  (∑ j, M i j / (∑ k, M k j)) / n

/-- `AHPCalculator.calculate_weights` (`ahp_calculator.py:87-118`): column
normalization, row means, then renormalization `weights / weights.sum()`. -/
def ahpWeights {n : ℕ} (M : Fin n → Fin n → ℚ) (i : Fin n) : ℚ :=
  ahpRowMean M i / (∑ k, ahpRowMean M k)

/-- The λ_max estimate of `AHPCalculator.check_consistency`
(`ahp_calculator.py:144-150`): mean of `(M @ w) / w`. -/
def ahpLambdaMax {n : ℕ} (M : Fin n → Fin n → ℚ) (w : Fin n → ℚ) : ℚ :=
  (∑ i, (∑ j, M i j * w j) / w i) / n

/-- `constants.RANDOM_INDEX` with the `.get(n, 1.0)` default. -/
def randomIndex : ℕ → ℚ
  | 1 => 0
  | 2 => 0
  | 3 => 58/100
  | 4 => 9/10
  | 5 => 112/100
  | 6 => 124/100
  | 7 => 132/100
  | 8 => 141/100
  | 9 => 145/100
  | 10 => 149/100
  | _ => 1

/-- `AHPCalculator.check_consistency` (`ahp_calculator.py:120-169`): the
consistency ratio `CI / RI`, or `0` when `RI ≤ 0`. -/
def ahpCR {n : ℕ} (M : Fin n → Fin n → ℚ) (w : Fin n → ℚ) : ℚ :=
  if 0 < randomIndex n then
    ((ahpLambdaMax M w - n) / ((n : ℚ) - 1)) / randomIndex n
  else 0

/-- The six Saaty-scale upper-triangle entries of `constants.AHP_MATRIX_*`. -/
structure AHPComparisons where
  proximite_vs_reputation : ℚ
  proximite_vs_capacite : ℚ
  proximite_vs_type_vehicule : ℚ
  reputation_vs_capacite : ℚ
  reputation_vs_type_vehicule : ℚ
  capacite_vs_type_vehicule : ℚ

/-- `AHPCalculator.build_comparison_matrix` (`ahp_calculator.py:36-85`):
ones on the diagonal, the six comparisons in the upper triangle, reciprocals
below. -/
def buildComparisonMatrix (c : AHPComparisons) : Fin 4 → Fin 4 → ℚ :=
  ![![1, c.proximite_vs_reputation, c.proximite_vs_capacite,
      c.proximite_vs_type_vehicule],
    ![1 / c.proximite_vs_reputation, 1, c.reputation_vs_capacite,
      c.reputation_vs_type_vehicule],
    ![1 / c.proximite_vs_capacite, 1 / c.reputation_vs_capacite, 1,
      c.capacite_vs_type_vehicule],
    ![1 / c.proximite_vs_type_vehicule, 1 / c.reputation_vs_type_vehicule,
      1 / c.capacite_vs_type_vehicule, 1]]

/-- `constants.AHP_MATRIX_STANDARD`. -/
def ahpMatrixStandard : Fin 4 → Fin 4 → ℚ :=
  buildComparisonMatrix ⟨2, 3, 5, 2, 3, 2⟩

/-- `constants.AHP_MATRIX_EXPRESS`. -/
def ahpMatrixExpress : Fin 4 → Fin 4 → ℚ :=
  buildComparisonMatrix ⟨4, 5, 6, 2, 3, 2⟩

/-- `constants.AHP_MATRIX_SAMEDAY`. -/
def ahpMatrixSameday : Fin 4 → Fin 4 → ℚ :=
  buildComparisonMatrix ⟨6, 7, 7, 2, 2, 1⟩

/-- `constants.AHP_MATRICES`. -/
def ahpMatrixOf : TypeLivraison → (Fin 4 → Fin 4 → ℚ)
  | .standard => ahpMatrixStandard
  | .express => ahpMatrixExpress
  | .sameday => ahpMatrixSameday

/-- `t + 1/t ≥ 2` for positive `t` — the pairing bound behind `λ_max ≥ n`. -/
theorem two_le_add_inv (t : ℚ) (ht : 0 < t) : 2 ≤ t + 1/t := by
  have hinv : t * (1/t) = 1 := by field_simp
  nlinarith [sq_nonneg (t - 1)]

/-- C6: for every AHP run on a positive reciprocal pairwise matrix (the
three per-urgency matrices in particular), the weights are non-negative and
sum to `1` within `1e-9` (exactly, in exact arithmetic), and the consistency
ratio is non-negative: the mean of `(M·w)ᵢ/wᵢ` is at least `n` because each
symmetric pair contributes `t + 1/t ≥ 2`. -/
theorem ahpWeights_nonneg_sum_one_cr_nonneg {n : ℕ} (M : Fin n → Fin n → ℚ)
    (hn : 1 ≤ n) (hrec : ∀ i j, 0 < M i j ∧ M j i = 1 / M i j) :
    (∀ i, 0 ≤ ahpWeights M i) ∧
    |(∑ i, ahpWeights M i) - 1| ≤ 1 / 10 ^ 9 ∧
    0 ≤ ahpCR M (ahpWeights M) := by
  haveI : NeZero n := ⟨by omega⟩
  have hnQ : (0:ℚ) < n := by
    exact_mod_cast Nat.pos_of_ne_zero (by omega)
  have hcol : ∀ j, 0 < ∑ k, M k j := fun j =>
    Finset.sum_pos (fun k _ => (hrec k j).1) Finset.univ_nonempty
  have hrm : ∀ i, 0 < ahpRowMean M i := by
    intro i
    unfold ahpRowMean
    apply div_pos _ hnQ
    exact Finset.sum_pos (fun j _ => div_pos (hrec i j).1 (hcol j))
      Finset.univ_nonempty
  have htot : 0 < ∑ k, ahpRowMean M k :=
    Finset.sum_pos (fun k _ => hrm k) Finset.univ_nonempty
  have hw : ∀ i, 0 < ahpWeights M i := fun i => div_pos (hrm i) htot
  have hsum : (∑ i, ahpWeights M i) = 1 := by
    unfold ahpWeights
    rw [← Finset.sum_div]
    exact div_self htot.ne'
  refine ⟨fun i => (hw i).le, by rw [hsum]; norm_num, ?_⟩
  unfold ahpCR
  by_cases hri : 0 < randomIndex n
  · rw [if_pos hri]
    have h3 : 3 ≤ n := by
      by_contra hlt
      push_neg at hlt
      interval_cases n
      · simp [randomIndex] at hri
      · simp [randomIndex] at hri
    have hpair : ∀ i j, (2:ℚ) ≤ M i j * ahpWeights M j / ahpWeights M i
        + M j i * ahpWeights M i / ahpWeights M j := by
      intro i j
      have ht : 0 < M i j * ahpWeights M j / ahpWeights M i :=
        div_pos (mul_pos (hrec i j).1 (hw j)) (hw i)
      have hm := (hrec i j).1.ne'
      have hwi := (hw i).ne'
      have hwj := (hw j).ne'
      have hji : M j i * ahpWeights M i / ahpWeights M j
          = 1 / (M i j * ahpWeights M j / ahpWeights M i) := by
        rw [(hrec i j).2]
        field_simp
      rw [hji]
      exact two_le_add_inv _ ht
    have hdouble : 2 * ((n:ℚ) * n) ≤
        ∑ i, ∑ j, (M i j * ahpWeights M j / ahpWeights M i
          + M j i * ahpWeights M i / ahpWeights M j) := by
      have hconst : (∑ _i : Fin n, ∑ _j : Fin n, (2:ℚ)) = 2 * ((n:ℚ) * n) := by
        simp [Finset.sum_const, Finset.card_univ]
        ring
      rw [← hconst]
      exact Finset.sum_le_sum (fun i _ =>
        Finset.sum_le_sum (fun j _ => hpair i j))
    have hsplit : (∑ i, ∑ j, (M i j * ahpWeights M j / ahpWeights M i
          + M j i * ahpWeights M i / ahpWeights M j))
        = (∑ i, ∑ j, M i j * ahpWeights M j / ahpWeights M i)
          + (∑ i, ∑ j, M j i * ahpWeights M i / ahpWeights M j) := by
      simp [Finset.sum_add_distrib]
    have hswap : (∑ i, ∑ j, M j i * ahpWeights M i / ahpWeights M j)
        = (∑ i, ∑ j, M i j * ahpWeights M j / ahpWeights M i) :=
      Finset.sum_comm
    have hT : (n:ℚ) * n ≤ ∑ i, ∑ j, M i j * ahpWeights M j / ahpWeights M i := by
      rw [hsplit, hswap] at hdouble
      linarith
    have hlam : (n:ℚ) ≤ ahpLambdaMax M (ahpWeights M) := by
      unfold ahpLambdaMax
      have hexp : (∑ i, (∑ j, M i j * ahpWeights M j) / ahpWeights M i)
          = ∑ i, ∑ j, M i j * ahpWeights M j / ahpWeights M i :=
        Finset.sum_congr rfl (fun i _ => Finset.sum_div _ _ _)
      rw [hexp]
      rw [le_div_iff hnQ]
      nlinarith
    have hden : (0:ℚ) < (n:ℚ) - 1 := by
      have : (3:ℚ) ≤ n := by exact_mod_cast h3
      linarith
    exact div_nonneg (div_nonneg (by linarith) hden.le) hri.le
  · rw [if_neg hri]

/-- C6 (witness): the theorem at the fixed `standard` matrix. -/
theorem ahpWeights_nonneg_sum_one_cr_nonneg_witness :
    (∀ i, 0 ≤ ahpWeights ahpMatrixStandard i) ∧
    |(∑ i, ahpWeights ahpMatrixStandard i) - 1| ≤ 1 / 10 ^ 9 ∧
    0 ≤ ahpCR ahpMatrixStandard (ahpWeights ahpMatrixStandard) :=
  ahpWeights_nonneg_sum_one_cr_nonneg ahpMatrixStandard (by norm_num)
    (by
      intro i j
      fin_cases i <;> fin_cases j <;>
        norm_num [ahpMatrixStandard, buildComparisonMatrix])

/-! ## Module 4 — TOPSIS ranker (`topsis_ranker.py`) -/

/-- Output entry of `TOPSISRanker.rank`, the fields the claims read. -/
structure TopsisResult where
  livreur_id : String
  score_final : ℝ

/-- `TOPSISRanker.is_benefit` (`topsis_ranker.py:43-48`): proximity is cost,
the other three criteria are benefits. -/
def isBenefit : Fin 4 → Bool := ![false, true, true, true]

/-- One row of `TOPSISRanker.build_decision_matrix` (`topsis_ranker.py:50-95`):
total distance, reputation, capacity, vehicle-type score. -/
noncomputable def decisionRow (dist : String → ℝ) (l : LivreurCandidat) :
    Fin 4 → ℝ :=
  ![dist l.livreur_id, l.reputation, l.capacite_max_kg,
    vehicleTypeScore l.type_vehicule]

/-- `np.max` over a list.  It raises on an empty array in the source; the `0`
default is junk, unreachable for the non-empty candidate lists the
orchestrator passes. -/
noncomputable def listMaxR : List ℝ → ℝ
  | [] => 0
  | x :: xs => xs.foldl max x

/-- `np.min` over a list (same convention as `listMaxR`). -/
noncomputable def listMinR : List ℝ → ℝ
  | [] => 0
  | x :: xs => xs.foldl min x

/-- Column norms of `TOPSISRanker.normalize_matrix` (`topsis_ranker.py:97-120`)
with the `np.where(norm == 0, 1, norm)` guard. -/
noncomputable def topsisColNorm (rows : List (Fin 4 → ℝ)) (j : Fin 4) : ℝ :=
  if Real.sqrt ((rows.map (fun r => r j ^ 2)).sum) = 0 then 1
  else Real.sqrt ((rows.map (fun r => r j ^ 2)).sum)

/-- Normalization then weighting (`topsis_ranker.py:97-153`):
`r_ij = (x_ij / norm_j) * w_j`. -/
noncomputable def topsisWeighted (rows : List (Fin 4 → ℝ)) (w : Fin 4 → ℝ)
    (r : Fin 4 → ℝ) (j : Fin 4) : ℝ :=
  (r j / topsisColNorm rows j) * w j

/-- Ideal positive solution `A⁺` (`topsis_ranker.py:155-191`). -/
noncomputable def topsisIdealPos (wRows : List (Fin 4 → ℝ)) (j : Fin 4) : ℝ :=
  if isBenefit j then listMaxR (wRows.map (fun v => v j))
  else listMinR (wRows.map (fun v => v j))

/-- Ideal negative solution `A⁻` (`topsis_ranker.py:155-191`). -/
noncomputable def topsisIdealNeg (wRows : List (Fin 4 → ℝ)) (j : Fin 4) : ℝ :=
  if isBenefit j then listMinR (wRows.map (fun v => v j))
  else listMaxR (wRows.map (fun v => v j))

/-- Closeness score `C = d⁻ / (d⁺ + d⁻)` with the
`np.where(total == 0, 1e-10, total)` guard (`topsis_ranker.py:193-258`). -/
noncomputable def topsisScoreOf (wRows : List (Fin 4 → ℝ)) (v : Fin 4 → ℝ) : ℝ :=
  let dPos := Real.sqrt (∑ j, (v j - topsisIdealPos wRows j) ^ 2)
  let dNeg := Real.sqrt (∑ j, (v j - topsisIdealNeg wRows j) ^ 2)
  dNeg / (if dPos + dNeg = 0 then 1/10^10 else dPos + dNeg)

/-- Steps 1–7 of `TOPSISRanker.rank`: the per-candidate results in input
order, before the final sort. -/
noncomputable def topsisResults (livreurs : List LivreurCandidat)
    (dist : String → ℝ) (w : Fin 4 → ℝ) : List TopsisResult :=
  let rows := livreurs.map (decisionRow dist)
  let wRows := rows.map (topsisWeighted rows w)
  livreurs.map (fun l =>
    { livreur_id := l.livreur_id
      score_final := topsisScoreOf wRows (topsisWeighted rows w (decisionRow dist l)) })

/-- Descending order on scores, the key of
`results.sort(key=lambda x: x["score_final"], reverse=True)`. -/
def topsisScoreDesc : TopsisResult → TopsisResult → Prop :=
  fun x y => y.score_final ≤ x.score_final

noncomputable instance : DecidableRel topsisScoreDesc :=
  fun _ _ => Classical.propDecidable _

instance : IsTotal TopsisResult topsisScoreDesc :=
  ⟨fun x y => le_total y.score_final x.score_final⟩

instance : IsTrans TopsisResult topsisScoreDesc :=
  ⟨fun _ _ _ h1 h2 => le_trans h2 h1⟩

/-- `TOPSISRanker.rank`, step 8 (`topsis_ranker.py:336-337`): Python's
`list.sort` is stable, modelled by the stable `insertionSort`. -/
noncomputable def topsisRank (livreurs : List LivreurCandidat)
    (dist : String → ℝ) (w : Fin 4 → ℝ) : List TopsisResult :=
  List.insertionSort topsisScoreDesc (topsisResults livreurs dist w)

/-- C3 (amended): every TOPSIS ranking is the stable descending sort of the
per-candidate results: scores are weakly decreasing along the output, the
output is a permutation of the results, and two results in the relation
(ties included) that appear in input order keep that order — ids play no
role in tie-breaking. -/
theorem topsisRank_sorted_descending_stable (livreurs : List LivreurCandidat)
    (dist : String → ℝ) (w : Fin 4 → ℝ) :
    (topsisRank livreurs dist w).Sorted topsisScoreDesc ∧
    List.Perm (topsisRank livreurs dist w) (topsisResults livreurs dist w) ∧
    ∀ x y, topsisScoreDesc x y →
      List.Sublist [x, y] (topsisResults livreurs dist w) →
      List.Sublist [x, y] (topsisRank livreurs dist w) :=
  ⟨List.sorted_insertionSort topsisScoreDesc _,
   List.perm_insertionSort topsisScoreDesc _,
   fun _ _ hxy hsub => List.pair_sublist_insertionSort hxy hsub⟩

noncomputable def livreurTieB : LivreurCandidat :=
  { livreur_id := "b"
    nom_commercial := "Livreur B"
    position_actuelle := ⟨0, 0⟩
    reputation := 5
    nombre_livraisons := 10
    taux_reussite := 9/10
    type_vehicule := .moto
    capacite_max_kg := 50 }

noncomputable def livreurTieA : LivreurCandidat :=
  { livreur_id := "a"
    nom_commercial := "Livreur A"
    position_actuelle := ⟨0, 0⟩
    reputation := 5
    nombre_livraisons := 10
    taux_reussite := 9/10
    type_vehicule := .moto
    capacite_max_kg := 50 }

/-- C3 (counterexample): two candidates with identical criteria rows, given
in the order `"b"`, `"a"`, tie at score `0` (both rows coincide with both
ideal solutions), and the returned ranking keeps them as `["b", "a"]` —
not in the lexicographic id order `["a", "b"]` the claim states. -/
theorem topsisRank_tie_keeps_input_order :
    ((topsisRank [livreurTieB, livreurTieA] (fun _ => 3) (fun _ => 1/4)).map
        (fun r => r.livreur_id) = ["b", "a"]) ∧
    ((topsisRank [livreurTieB, livreurTieA] (fun _ => 3) (fun _ => 1/4)).map
        (fun r => r.score_final) = [0, 0]) ∧
    ¬ (("b" : String) ≤ "a") := by
  have hrow : decisionRow (fun _ => 3) livreurTieA
      = decisionRow (fun _ => 3) livreurTieB := rfl
  have hideal : ∀ (v : Fin 4 → ℝ) (j : Fin 4),
      topsisIdealNeg [v, v] j = v j := by
    intro v j
    unfold topsisIdealNeg
    have hmin : listMinR [v j, v j] = v j := by
      simp [listMinR]
    have hmax : listMaxR [v j, v j] = v j := by
      simp [listMaxR]
    cases hb : isBenefit j <;> simp [hb, hmin, hmax]
  have hscore : ∀ (v : Fin 4 → ℝ), topsisScoreOf [v, v] v = 0 := by
    intro v
    unfold topsisScoreOf
    have hzero : (∑ j, (v j - topsisIdealNeg [v, v] j) ^ 2) = 0 :=
      Finset.sum_eq_zero (fun j _ => by rw [hideal v j]; ring)
    simp only [hzero, Real.sqrt_zero, zero_div]
  have hres : topsisResults [livreurTieB, livreurTieA] (fun _ => 3) (fun _ => 1/4)
      = [⟨"b", 0⟩, ⟨"a", 0⟩] := by
    unfold topsisResults
    simp only [List.map_cons, List.map_nil, hrow]
    rw [hscore]
    rfl
  have hsort : topsisRank [livreurTieB, livreurTieA] (fun _ => 3) (fun _ => 1/4)
      = [⟨"b", 0⟩, ⟨"a", 0⟩] := by
    rw [topsisRank, hres]
    simp [List.insertionSort, List.orderedInsert, topsisScoreDesc]
  refine ⟨by rw [hsort]; rfl, by rw [hsort]; rfl, ?_⟩
  rw [String.le_iff_toList_le]
  decide

/-! ## Module 4 — orchestrator (`orchestrator.py`) -/

/-- `schemas.OptionsClassementSchema`: the request-level options, including
the documented spatial-tolerance override (`None` = per-urgency default). -/
structure OptionsClassement where
  top_k : Option ℕ
  tolerance_spatiale_km : Option ℝ

/-- `schemas.AnnonceSchema`, the fields the orchestrator reads. -/
structure Annonce where
  annonce_id : String
  point_ramassage : Point
  point_livraison : Point
  type_livraison : TypeLivraison

/-- `schemas.RankingRequestSchema`. -/
structure RankingRequest where
  annonce : Annonce
  livreurs_candidats : List LivreurCandidat
  options : Option OptionsClassement

/-- `schemas.LivreurClasseSchema`, the fields the claims read. -/
structure LivreurClasse where
  rang : ℕ
  livreur_id : String
  score_final : ℝ

/-- The response fields the claims read (`RankingResponseSchema` flattened
with its `MetadataSchema`). -/
structure RankingResponse where
  status : String
  annonce_id : String
  livreurs_classes : List LivreurClasse
  type_livraison : TypeLivraison
  tolerance_spatiale_km : ℝ
  total_candidats : ℕ
  candidats_eligibles : ℕ
  candidats_rejetes : ℕ

/-- `SpatialFilter.calculate_distances_for_livreurs`
(`spatial_filter.py:159-192`) as a lookup function: each candidate id maps to
its total distance; a later duplicate id would overwrite an earlier one, as
in the Python dict. -/
noncomputable def distancesForLivreurs (livreurs : List LivreurCandidat)
    (ramassage livraison : Point) : String → ℝ := fun i =>
  match livreurs.reverse.find? (fun l => l.livreur_id == i) with
  | some l => (calculateTotalDistance l.position_actuelle.latitude
      l.position_actuelle.longitude ramassage.latitude ramassage.longitude
      livraison.latitude livraison.longitude).2.2
  | none => 0

/-- `AHPCalculator.calculate_criteria_weights` at the urgency's preset
matrix, as the weight vector in criteria order.  The AHP arithmetic is
rational and `ℚ → ℝ` is a field embedding, so the cast is exact. -/
noncomputable def criteriaWeights (t : TypeLivraison) : Fin 4 → ℝ :=
  fun j => ((ahpWeights (ahpMatrixOf t) j : ℚ) : ℝ)

open Classical in
/-- `Orchestrator.rank_livreurs` (`orchestrator.py:52-190`): the spatial
tolerance is `SPATIAL_TOLERANCE_KM[annonce.type_livraison]` (line 82);
`request.options` is never consulted.  Phase 1 filters, the empty case
returns early, otherwise AHP weights feed TOPSIS and ranks are assigned
1-based in sort order (`_format_ranked_livreurs`). -/
noncomputable def rankLivreurs (request : RankingRequest) : RankingResponse :=
  let annonce := request.annonce
  let livreurs := request.livreurs_candidats
  let tolerance_km := spatialToleranceKm annonce.type_livraison
  let filtered := filterByEllipse livreurs annonce.point_ramassage
    annonce.point_livraison tolerance_km
  if filtered.1.isEmpty then
    { status := "success"
      annonce_id := annonce.annonce_id
      livreurs_classes := []
      type_livraison := annonce.type_livraison
      tolerance_spatiale_km := tolerance_km
      total_candidats := livreurs.length
      candidats_eligibles := 0
      candidats_rejetes := filtered.2.length }
  else
    let distances := distancesForLivreurs filtered.1 annonce.point_ramassage
      annonce.point_livraison
    let topsis := topsisRank filtered.1 distances
      (criteriaWeights annonce.type_livraison)
    { status := "success"
      annonce_id := annonce.annonce_id
      livreurs_classes := topsis.enum.map (fun p =>
        { rang := p.1 + 1
          livreur_id := p.2.livreur_id
          score_final := p.2.score_final })
      type_livraison := annonce.type_livraison
      tolerance_spatiale_km := tolerance_km
      total_candidats := livreurs.length
      candidats_eligibles := filtered.1.length
      candidats_rejetes := filtered.2.length }

/-- A ranking request for a `standard` delivery that carries the
`options.tolerance_spatiale_km = 9.9` override. -/
noncomputable def overrideDemoRequest : RankingRequest :=
  { annonce :=
      { annonce_id := "A1"
        point_ramassage := ⟨0, 0⟩
        point_livraison := ⟨0, 1⟩
        type_livraison := .standard }
    livreurs_candidats := [dropoffCandidate]
    options := some { top_k := none, tolerance_spatiale_km := some (99/10) } }

/-- C4 (code divergence): for every courier-ranking request — including one
whose `options.tolerance_spatiale_km` is `9.9` — the tolerance used for Dmax
and recorded in the metadata is the per-urgency default (`2.5` for
`standard`); the override field exists on the schema but is never read. -/
theorem rankLivreurs_ignores_tolerance_override :
    (∀ request : RankingRequest,
      (rankLivreurs request).tolerance_spatiale_km
        = spatialToleranceKm request.annonce.type_livraison) ∧
    overrideDemoRequest.options = some ⟨none, some (99/10)⟩ ∧
    (rankLivreurs overrideDemoRequest).tolerance_spatiale_km = 5/2 := by
  have hgen : ∀ request : RankingRequest,
      (rankLivreurs request).tolerance_spatiale_km
        = spatialToleranceKm request.annonce.type_livraison := by
    intro request
    simp only [rankLivreurs]
    split <;> rfl
  exact ⟨hgen, rfl, by rw [hgen]; rfl⟩
